import Mathlib

/-!
Verification development for the Mava distributed-training core
(parameter server / executor / trainer).

The parameter server, executor/evaluator and trainer implementations are
exercised by the repository's tests but their bodies are not part of the
sampled sources, so those components are modelled from the specification
(sections 3, 4.1, 4.3, 4.4 of the spec); each such definition carries a
doc comment starting with "Modelled from the spec:".  The MAPPO builder
(mava/systems/tf/mappo/system.py) is part of the sampled sources and its
make_executor method is embedded directly from the code.
-/

namespace Mava

/-- Modelled from the spec: a parameter value stored by the Parameter
Server is either a numeric array (a numpy ndarray, here a list of
integers) or a plain scalar.  The distinction matters because counters
such as trainer_steps are exposed as 1-element integer arrays, not
Python scalars. -/
inductive ParamValue where
  | scalar (n : Int)
  | array (xs : List Int)
deriving DecidableEq

/-- Modelled from the spec: numeric addition of parameter values, used by
add_to_parameters.  Arrays add elementwise (numpy semantics); a scalar
added to an array broadcasts over the array. -/
def ParamValue.add : ParamValue → ParamValue → ParamValue
  | .scalar a, .scalar b => .scalar (a + b)
  | .array xs, .array ys => .array (List.zipWith (fun a b => a + b) xs ys)
  | .scalar a, .array ys => .array (ys.map (fun b => a + b))
  | .array xs, .scalar b => .array (xs.map (fun a => a + b))

/-- Lookup of a name in an association list of registered parameters. -/
def getEntry : List (String × ParamValue) → String → Option ParamValue
  | [], _ => none
  | (k, v) :: rest, name => if k = name then some v else getEntry rest name

/-- Overwrite the first binding of a name in an association list; a name
that is not bound is left unregistered (callers check registration
first). -/
def setEntry : List (String × ParamValue) → String → ParamValue → List (String × ParamValue)
  | [], _, _ => []
  | (k, v) :: rest, name, newv =>
    if k = name then (k, newv) :: rest else (k, v) :: setEntry rest name newv

/-- Modelled from the spec: the error raised by the Parameter Server when
a requested or updated name was never registered. -/
inductive UnknownParameterError where
  | unknown (name : String)
deriving DecidableEq

/-- Modelled from the spec: the ParameterStore, a mapping from parameter
name to a numeric value, created once at process start from the set of
registered names. -/
structure ParameterStore where
  entries : List (String × ParamValue)
deriving DecidableEq

/-- Modelled from the spec: get_parameters for a single name.  Fails with
UnknownParameterError if the name was never registered; never returns a
default. -/
def ParameterStore.get_parameters (s : ParameterStore) (name : String) :
    Except UnknownParameterError ParamValue :=
  match getEntry s.entries name with
  | some v => .ok v
  | none => .error (.unknown name)

/-- Modelled from the spec: set_parameters overwrites named entries with
new values, one name at a time; an unregistered name is an error. -/
def ParameterStore.set_parameters (s : ParameterStore) :
    List (String × ParamValue) → Except UnknownParameterError ParameterStore
  | [] => .ok s
  | (name, v) :: rest =>
    match getEntry s.entries name with
    | some _ => ParameterStore.set_parameters ⟨setEntry s.entries name v⟩ rest
    | none => .error (.unknown name)

/-- Modelled from the spec: add_to_parameters adds a delta to named
numeric entries in place (used for counters); an unregistered name is an
error. -/
def ParameterStore.add_to_parameters (s : ParameterStore) :
    List (String × ParamValue) → Except UnknownParameterError ParameterStore
  | [] => .ok s
  | (name, v) :: rest =>
    match getEntry s.entries name with
    | some w => ParameterStore.add_to_parameters ⟨setEntry s.entries name (w.add v)⟩ rest
    | none => .error (.unknown name)

/-- Modelled from the spec: the counters registered by the default
parameter server of a freshly built system; each counter starts as a
1-element integer array holding zero. -/
def default_parameter_store : ParameterStore :=
  ⟨[("trainer_steps", .array [0]), ("trainer_walltime", .array [0]),
    ("evaluator_steps", .array [0]), ("evaluator_episodes", .array [0]),
    ("executor_episodes", .array [0]), ("executor_steps", .array [0])]⟩

/-- Modelled from the spec: the Parameter Server process, holding the
authoritative ParameterStore; each operation is composed from an ordered
list of hook callbacks.  Like the test's HookOrderTracking mixin, the
server records the name of every hook it invokes in hook_list. -/
structure ParameterServer where
  store : ParameterStore
  hook_list : List String
deriving DecidableEq

/-- Invoke one named hook: the hook's name is appended to the recorded
hook list. -/
def ParameterServer.callHook (s : ParameterServer) (name : String) : ParameterServer :=
  { s with hook_list := s.hook_list ++ [name] }

/-- Clear the recorded hook list (the test mixin's hook-list reset). -/
def ParameterServer.reset_hook_list (s : ParameterServer) : ParameterServer :=
  { s with hook_list := [] }

/-- Modelled from the spec: server construction runs the init hooks in
their fixed order over the given store. -/
def ParameterServer.init (store : ParameterStore) : ParameterServer :=
  let s0 : ParameterServer := { store := store, hook_list := [] }
  let s1 := s0.callHook "on_parameter_server_init_start"
  let s2 := s1.callHook "on_parameter_server_init"
  let s3 := s2.callHook "on_parameter_server_init_checkpointer"
  s3.callHook "on_parameter_server_init_end"

/-- Modelled from the spec: server-level get_parameters runs its start,
main and end hooks in order around the store lookup. -/
def ParameterServer.get_parameters (s : ParameterServer) (name : String) :
    ParameterServer × Except UnknownParameterError ParamValue :=
  let s1 := s.callHook "on_parameter_server_get_parameters_start"
  let res := s1.store.get_parameters name
  let s2 := s1.callHook "on_parameter_server_get_parameters"
  let s3 := s2.callHook "on_parameter_server_get_parameters_end"
  (s3, res)

/-- Modelled from the spec: server-level set_parameters runs its start,
main and end hooks in order; the store update happens at the main hook. -/
def ParameterServer.set_parameters (s : ParameterServer)
    (updates : List (String × ParamValue)) :
    ParameterServer × Except UnknownParameterError Unit :=
  let s1 := s.callHook "on_parameter_server_set_parameters_start"
  let res := s1.store.set_parameters updates
  let newStore := match res with
    | .ok st => st
    | .error _ => s1.store
  let s2 : ParameterServer := { s1 with store := newStore }
  let s3 := s2.callHook "on_parameter_server_set_parameters"
  let s4 := s3.callHook "on_parameter_server_set_parameters_end"
  (s4, res.map (fun _ => ()))

/-- Modelled from the spec: server-level add_to_parameters runs its
start, main and end hooks in order; the store update happens at the main
hook. -/
def ParameterServer.add_to_parameters (s : ParameterServer)
    (updates : List (String × ParamValue)) :
    ParameterServer × Except UnknownParameterError Unit :=
  let s1 := s.callHook "on_parameter_server_add_to_parameters_start"
  let res := s1.store.add_to_parameters updates
  let newStore := match res with
    | .ok st => st
    | .error _ => s1.store
  let s2 : ParameterServer := { s1 with store := newStore }
  let s3 := s2.callHook "on_parameter_server_add_to_parameters"
  let s4 := s3.callHook "on_parameter_server_add_to_parameters_end"
  (s4, res.map (fun _ => ()))

/-- Modelled from the spec: the maintenance-loop body runs its run-loop
hooks (checkpoint, loop body, termination check) in their fixed order;
checkpoint writes and sleeping have no effect on the store. -/
def ParameterServer.step (s : ParameterServer) : ParameterServer :=
  let s1 := s.callHook "on_parameter_server_run_loop_start"
  let s2 := s1.callHook "on_parameter_server_run_loop_checkpoint"
  let s3 := s2.callHook "on_parameter_server_run_loop"
  let s4 := s3.callHook "on_parameter_server_run_loop_termination"
  s4.callHook "on_parameter_server_run_loop_end"

/-- One experience record written to the Data Server: the per-agent
actions taken at one environment step (record contents beyond "one entry
per step" are irrelevant to the claims). -/
abbrev Record := List (String × Nat)

/-- Modelled from the spec: the core state of an executor process.  An
Evaluator is an Executor variant whose adder is absent (none); policyRaw
is the locally cached policy head computation, one raw value per agent
and observation, turned into an in-range discrete action by
select_actions. -/
structure ExecutorCore where
  adder : Option Unit
  policyRaw : String → Int → Nat

/-- Modelled from the spec: the environment collaborator — a list of
possible agents, each agent's discrete action-space size, the episode
length, and the observation each agent receives at each step. -/
structure Environment where
  possible_agents : List String
  num_values : String → Nat
  episode_length : Nat
  obs_fn : Nat → String → Int

/-- Modelled from the spec: the debugging simple_spread environment with
a discrete action space: three agents, five possible actions per agent
(observation contents are abstract). -/
def simple_spread_env : Environment :=
  { possible_agents := ["agent_0", "agent_1", "agent_2"],
    num_values := fun _ => 5,
    episode_length := 50,
    obs_fn := fun _ _ => 0 }

/-- Modelled from the spec: select_actions returns, for every agent
present in the observation set and in agent-id order, an action inside
that agent's discrete action space (the policy head is a categorical
head over num_values actions, so the selected index is reduced modulo
num_values) together with auxiliary policy info (the log-probability
key). -/
def select_actions (ex : ExecutorCore) (num_values : String → Nat)
    (observations : List (String × Int)) :
    List (String × Nat) × List (String × String) :=
  (observations.map (fun p => (p.1, ex.policyRaw p.1 p.2 % num_values p.1)),
   observations.map (fun p => (p.1, "log_prob")))

/-- Modelled from the spec: observe appends the just-taken step to the
adder (Executor) or is a no-op when the adder is absent (Evaluator). -/
def observe (ex : ExecutorCore) (ds : List Record) (rec : Record) : List Record :=
  match ex.adder with
  | none => ds
  | some _ => ds ++ [rec]

/-- Modelled from the spec: observe_first records the initial
observation; with an adder present it emits the episode-boundary signal
to the Data Server, and it has no Data Server side effect when the adder
is absent (Evaluator). -/
def observe_first (ex : ExecutorCore) (ds : List Record) : List Record :=
  match ex.adder with
  | none => ds
  | some _ => ds ++ [[]]

/-- Modelled from the spec: the acting loop — at each step the executor
selects actions for the current observations, steps the environment, and
observes the result; fuel counts the remaining steps of the episode. -/
def run_steps (ex : ExecutorCore) (env : Environment) :
    Nat → Nat → List Record → List Record
  | _, 0, ds => ds
  | t, Nat.succ fuel, ds =>
    let obs := env.possible_agents.map (fun a => (a, env.obs_fn t a))
    let acts := (select_actions ex env.num_values obs).1
    run_steps ex env (t + 1) fuel (observe ex ds acts)

/-- Modelled from the spec: run_episode drives observe_first followed by
the acting loop until the environment signals episode termination,
threading the Data Server contents through. -/
def run_episode (ex : ExecutorCore) (env : Environment) (ds : List Record) :
    List Record :=
  run_steps ex env 0 env.episode_length (observe_first ex ds)

/-- Repeated episodes: the Data Server contents after n consecutive
calls of run_episode. -/
def run_episodes (ex : ExecutorCore) (env : Environment) :
    Nat → List Record → List Record
  | 0, ds => ds
  | Nat.succ n, ds => run_episodes ex env n (run_episode ex env ds)

/-- Modelled from the spec: an Evaluator is an Executor built without an
adder (adder is absent/disabled). -/
def mkEvaluator (policy : String → Int → Nat) : ExecutorCore :=
  { adder := none, policyRaw := policy }

/-- The slice of MAPPOConfig that MAPPOBuilder.make_executor reads
(mava/systems/tf/mappo/system.py): only the shared_weights flag decides
whether variables are keyed by agent type or by agent id. -/
structure MAPPOConfig where
  shared_weights : Bool

/-- The variable client created by make_executor
(acme.tf.variable_utils.VariableClient, an external collaborator):
variables is the single-key dict mapping "policy" to the per-agent-key
network variables, update_period is fixed to 1000 in the source, and
fetched records whether a blocking fetch of remote values has completed
(spec section 4.2: get_and_wait is the blocking startup fetch). -/
structure VariableClient where
  variables_map : List (String × List (String × Option Nat))
  update_period : Nat
  fetched : Bool
deriving DecidableEq

/-- Modelled from the spec: update_and_wait is the blocking fetch of
current remote values; after it returns, the client's cached values are
real fetched values, recorded by the fetched flag. -/
def VariableClient.update_and_wait (c : VariableClient) : VariableClient :=
  { c with fetched := true }

/-- The RecurrentExecutor constructed at the end of make_executor
(networks are abstract handles keyed by agent/agent-type id). -/
structure RecurrentExecutor where
  policy_networks : List (String × Nat)
  shared_weights : Bool
  variable_client : Option VariableClient
  adder : Option Unit
deriving DecidableEq

/-- Observable build-time effects of make_executor, in the order they
happen. -/
inductive BuildEvent where
  | createVariableClient
  | updateAndWait
deriving DecidableEq

/-- Embedding of MAPPOBuilder.make_executor
(mava/systems/tf/mappo/system.py, lines 134-176): when a variable source
is given, a VariableClient over the policy variables is created and
update_and_wait is called on it before the RecurrentExecutor is
constructed and returned; when the variable source is None the
variable_client stays None and no fetch happens.  The returned event
list records the build-time effects in order. -/
def MAPPOBuilder.make_executor (config : MAPPOConfig)
    (agents agent_types : List String)
    (policy_networks : List (String × Nat))
    (adder : Option Unit) (variable_source : Option Unit) :
    RecurrentExecutor × List BuildEvent :=
  let shared_weights := config.shared_weights
  match variable_source with
  | none =>
    ({ policy_networks := policy_networks, shared_weights := shared_weights,
       variable_client := none, adder := adder }, [])
  | some _ =>
    let agent_keys := if shared_weights then agent_types else agents
    let vars := agent_keys.map (fun agent => (agent, List.lookup agent policy_networks))
    let variable_client : VariableClient :=
      { variables_map := [("policy", vars)], update_period := 1000, fetched := false }
    let variable_client := variable_client.update_and_wait
    ({ policy_networks := policy_networks, shared_weights := shared_weights,
       variable_client := some variable_client, adder := adder },
     [BuildEvent.createVariableClient, BuildEvent.updateAndWait])

/-- Modelled from the spec: the state of a Trainer process — the Data
Server's batch iterator (a batch-producing stream, so a pull always
returns a batch), the iterator position, the pluggable update rule
mapping one batch to a parameter delta, and the Parameter Server's store
it writes to. -/
structure TrainerState where
  dataset : Nat → List Int
  iter_index : Nat
  compute_delta : List Int → List (String × ParamValue)
  param_store : ParameterStore

/-- Modelled from the spec: Trainer.step pulls exactly one batch from
the Data Server's iterator, computes a parameter delta, calls
set_parameters and add_to_parameters on the Parameter Server, and
increments the global trainer-step counter by one. -/
def TrainerState.step (t : TrainerState) : Except UnknownParameterError TrainerState :=
  let batch := t.dataset t.iter_index
  let delta := t.compute_delta batch
  match t.param_store.set_parameters delta with
  | .error e => .error e
  | .ok ps1 =>
    match ps1.add_to_parameters [("trainer_steps", .array [1])] with
    | .error e => .error e
    | .ok ps2 => .ok { t with iter_index := t.iter_index + 1, param_store := ps2 }

/-- Repeated counter increment: the store after k successive calls of
add_to_parameters with a delta of one on the given name. -/
def iterAdd (s : ParameterStore) (name : String) :
    Nat → Except UnknownParameterError ParameterStore
  | 0 => .ok s
  | Nat.succ k =>
    match s.add_to_parameters [(name, ParamValue.array [1])] with
    | .ok s1 => iterAdd s1 name k
    | .error e => .error e

theorem getEntry_setEntry_same (l : List (String × ParamValue)) (name : String)
    (v w : ParamValue) (h : getEntry l name = some w) :
    getEntry (setEntry l name v) name = some v := by
  induction l with
  | nil => simp [getEntry] at h
  | cons p rest ih =>
    obtain ⟨k, u⟩ := p
    by_cases hk : k = name
    · simp [getEntry, setEntry, hk]
    · simp [getEntry, setEntry, hk] at h ⊢
      exact ih h

theorem getEntry_setEntry_ne (l : List (String × ParamValue)) (name m : String)
    (v : ParamValue) (h : name ≠ m) :
    getEntry (setEntry l name v) m = getEntry l m := by
  induction l with
  | nil => simp [setEntry]
  | cons p rest ih =>
    obtain ⟨k, u⟩ := p
    by_cases hk : k = name
    · subst hk
      simp [getEntry, setEntry, h]
    · simp [getEntry, setEntry, hk]
      by_cases hm : k = m <;> simp [hm, ih]

theorem getEntry_setEntry_isSome (l : List (String × ParamValue)) (name m : String)
    (v : ParamValue) :
    (getEntry (setEntry l name v) m).isSome = (getEntry l m).isSome := by
  induction l with
  | nil => simp [setEntry]
  | cons p rest ih =>
    obtain ⟨k, u⟩ := p
    by_cases hk : k = name
    · subst hk
      by_cases hm : k = m <;> simp [getEntry, setEntry, hm]
    · by_cases hm : k = m
      · subst hm
        simp [getEntry, setEntry, hk]
      · simp [getEntry, setEntry, hk, hm, ih]

theorem store_get_of_getEntry (s : ParameterStore) (name : String) (v : ParamValue)
    (h : getEntry s.entries name = some v) :
    s.get_parameters name = .ok v := by
  simp [ParameterStore.get_parameters, h]

theorem server_get_result (s : ParameterServer) (name : String) :
    (s.get_parameters name).2 = s.store.get_parameters name := rfl

theorem server_set_single_store (s : ParameterServer) (name : String)
    (v w : ParamValue) (h : getEntry s.store.entries name = some w) :
    (s.set_parameters [(name, v)]).1.store = ⟨setEntry s.store.entries name v⟩ := by
  simp [ParameterServer.set_parameters, ParameterServer.callHook,
    ParameterStore.set_parameters, h]

theorem server_add_single_store (s : ParameterServer) (name : String)
    (v w : ParamValue) (h : getEntry s.store.entries name = some w) :
    (s.add_to_parameters [(name, v)]).1.store = ⟨setEntry s.store.entries name (w.add v)⟩ := by
  simp [ParameterServer.add_to_parameters, ParameterServer.callHook,
    ParameterStore.add_to_parameters, h]

theorem add_single_counter (s : ParameterStore) (name : String) (i j : Int)
    (h : getEntry s.entries name = some (.array [i])) :
    s.add_to_parameters [(name, .array [j])] = .ok ⟨setEntry s.entries name (.array [i + j])⟩ := by
  simp [ParameterStore.add_to_parameters, h, ParamValue.add]

theorem iterAdd_counter (k : Nat) :
    ∀ (s : ParameterStore) (name : String) (i : Int),
      getEntry s.entries name = some (.array [i]) →
      ∃ s', iterAdd s name k = .ok s' ∧
        getEntry s'.entries name = some (.array [i + k]) := by
  induction k with
  | zero =>
    intro s name i h
    exact ⟨s, rfl, by simpa using h⟩
  | succ k ih =>
    intro s name i h
    have hadd := add_single_counter s name i 1 h
    have hnext : getEntry (setEntry s.entries name (.array [i + 1])) name
        = some (.array [i + 1]) := getEntry_setEntry_same _ _ _ _ h
    obtain ⟨s', hs', hval⟩ := ih ⟨setEntry s.entries name (.array [i + 1])⟩ name (i + 1) hnext
    refine ⟨s', ?_, ?_⟩
    · simp [iterAdd, hadd, hs']
    · have : i + 1 + (k : Int) = i + ((k : Nat) + 1 : Nat) := by push_cast; ring
      rw [← this]
      exact hval

theorem set_parameters_ok (updates : List (String × ParamValue)) :
    ∀ s : ParameterStore,
      (∀ p ∈ updates, (getEntry s.entries p.1).isSome = true) →
      ∃ s', s.set_parameters updates = .ok s' ∧
        (∀ m, (getEntry s'.entries m).isSome = (getEntry s.entries m).isSome) ∧
        (∀ m, (∀ p ∈ updates, p.1 ≠ m) → getEntry s'.entries m = getEntry s.entries m) := by
  induction updates with
  | nil =>
    intro s _
    exact ⟨s, rfl, fun _ => rfl, fun _ _ => rfl⟩
  | cons p rest ih =>
    intro s hreg
    obtain ⟨name, v⟩ := p
    have hname : (getEntry s.entries name).isSome = true := hreg _ (List.mem_cons_self _ _)
    obtain ⟨w, hw⟩ := Option.isSome_iff_exists.mp hname
    have hrest : ∀ q ∈ rest, (getEntry (setEntry s.entries name v) q.1).isSome = true := by
      intro q hq
      rw [getEntry_setEntry_isSome]
      exact hreg _ (List.mem_cons_of_mem _ hq)
    obtain ⟨s', hs', hdom, huntouched⟩ := ih ⟨setEntry s.entries name v⟩ hrest
    refine ⟨s', ?_, ?_, ?_⟩
    · simp [ParameterStore.set_parameters, hw, hs']
    · intro m
      rw [hdom m]
      exact getEntry_setEntry_isSome _ _ _ _
    · intro m hm
      have hne : name ≠ m := hm (name, v) (List.mem_cons_self _ _)
      rw [huntouched m (fun q hq => hm q (List.mem_cons_of_mem _ hq))]
      exact getEntry_setEntry_ne _ _ _ _ hne

theorem trainer_step_ok (t : TrainerState) (i : Int)
    (h1 : getEntry t.param_store.entries "trainer_steps" = some (.array [i]))
    (h2 : ∀ b p, p ∈ t.compute_delta b →
      (getEntry t.param_store.entries p.1).isSome = true ∧ p.1 ≠ "trainer_steps") :
    ∃ t', t.step = .ok t' ∧
      getEntry t'.param_store.entries "trainer_steps" = some (.array [i + 1]) ∧
      (∀ m, (getEntry t'.param_store.entries m).isSome
        = (getEntry t.param_store.entries m).isSome) ∧
      t'.compute_delta = t.compute_delta := by
  set delta := t.compute_delta (t.dataset t.iter_index) with hdelta
  obtain ⟨ps1, hset, hdom1, huntouched1⟩ :=
    set_parameters_ok delta t.param_store (fun p hp => (h2 _ p hp).1)
  have hsteps1 : getEntry ps1.entries "trainer_steps" = some (.array [i]) := by
    rw [huntouched1 _ (fun p hp => (h2 _ p hp).2)]
    exact h1
  have hadd := add_single_counter ps1 "trainer_steps" i 1 hsteps1
  refine ⟨⟨t.dataset, t.iter_index + 1, t.compute_delta,
    ⟨setEntry ps1.entries "trainer_steps" (.array [i + 1])⟩⟩, ?_, ?_, ?_, rfl⟩
  · simp [TrainerState.step, ← hdelta, hset, hadd]
  · exact getEntry_setEntry_same _ _ _ _ hsteps1
  · intro m
    simp only
    rw [getEntry_setEntry_isSome]
    exact hdom1 m

theorem run_steps_adder_none (ex : ExecutorCore) (env : Environment)
    (h : ex.adder = none) :
    ∀ (fuel t : Nat) (ds : List Record), run_steps ex env t fuel ds = ds := by
  intro fuel
  induction fuel with
  | zero => intro t ds; rfl
  | succ fuel ih =>
    intro t ds
    rw [run_steps, observe, h]
    exact ih _ _

theorem run_episode_adder_none (ex : ExecutorCore) (env : Environment)
    (h : ex.adder = none) (ds : List Record) :
    run_episode ex env ds = ds := by
  rw [run_episode, observe_first, h]
  exact run_steps_adder_none ex env h _ _ _

theorem server_set_then_get (s : ParameterServer) (name : String)
    (v w : ParamValue) (h : getEntry s.store.entries name = some w) :
    getEntry (s.set_parameters [(name, v)]).1.store.entries name = some v := by
  rw [server_set_single_store s name v w h]
  exact getEntry_setEntry_same _ _ _ _ h

theorem server_add_then_get (s : ParameterServer) (name : String) (i j : Int)
    (h : getEntry s.store.entries name = some (.array [i])) :
    getEntry (s.add_to_parameters [(name, .array [j])]).1.store.entries name
      = some (.array [i + j]) := by
  rw [server_add_single_store s name (.array [j]) (.array [i]) h]
  have hv : (ParamValue.array [i]).add (.array [j]) = .array [i + j] := rfl
  rw [← hv]
  exact getEntry_setEntry_same _ _ _ _ h

/-- C1: for every registered parameter name and every value v, calling
get_parameters(name) on the Parameter Server immediately after
set_parameters({name: v}) returns exactly v. -/
theorem c1_get_after_set_returns_value (s : ParameterServer) (name : String)
    (v w : ParamValue) (h : getEntry s.store.entries name = some w) :
    ((s.set_parameters [(name, v)]).1.get_parameters name).2 = .ok v := by
  rw [server_get_result]
  exact store_get_of_getEntry _ _ _ (server_set_then_get s name v w h)

/-- Witness for C1 at the freshly built server and the registered name
trainer_steps with value the one-element array holding 5. -/
theorem c1_get_after_set_returns_value_witness :
    getEntry (ParameterServer.init default_parameter_store).store.entries "trainer_steps"
      = some (.array [0]) ∧
    (((ParameterServer.init default_parameter_store).set_parameters
        [("trainer_steps", .array [5])]).1.get_parameters "trainer_steps").2
      = .ok (.array [5]) :=
  ⟨by decide,
   c1_get_after_set_returns_value (ParameterServer.init default_parameter_store)
     "trainer_steps" (.array [5]) (.array [0]) (by decide)⟩

/-- C2: a registered counter starting at 0 reaches k after k applications
of add_to_parameters({name: 1}); and the concrete scenario: with
trainer_steps registered at 0, set_parameters({"trainer_steps": 1}) makes
get_parameters return 1, and a following add_to_parameters({"trainer_steps": 1})
makes it return 2. -/
theorem c2_counter_add_k_times :
    (∀ (s : ParameterStore) (name : String) (k : Nat),
      getEntry s.entries name = some (.array [0]) →
      ∃ s', iterAdd s name k = .ok s' ∧
        getEntry s'.entries name = some (.array [(k : Int)])) ∧
    (((ParameterServer.init default_parameter_store).set_parameters
        [("trainer_steps", .array [1])]).1.get_parameters "trainer_steps").2
      = .ok (.array [1]) ∧
    ((((ParameterServer.init default_parameter_store).set_parameters
        [("trainer_steps", .array [1])]).1.add_to_parameters
        [("trainer_steps", .array [1])]).1.get_parameters "trainer_steps").2
      = .ok (.array [2]) := by
  refine ⟨?_, rfl, rfl⟩
  intro s name k h
  obtain ⟨s', hs', hval⟩ := iterAdd_counter k s name 0 h
  exact ⟨s', hs', by simpa using hval⟩

/-- Witness for C2: three increments of the trainer_steps counter of the
fresh store, starting from 0, reach 3. -/
theorem c2_counter_add_k_times_witness :
    getEntry default_parameter_store.entries "trainer_steps" = some (.array [0]) ∧
    ∃ s', iterAdd default_parameter_store "trainer_steps" 3 = .ok s' ∧
      getEntry s'.entries "trainer_steps" = some (.array [((3 : Nat) : Int)]) :=
  ⟨by decide,
   c2_counter_add_k_times.1 default_parameter_store "trainer_steps" 3 (by decide)⟩

/-- C3: get_parameters on a name that was never registered fails with
UnknownParameterError and never returns a value. -/
theorem c3_unknown_name_errors (s : ParameterServer) (name : String)
    (h : getEntry s.store.entries name = none) :
    (s.get_parameters name).2 = .error (.unknown name) ∧
    ∀ v, (s.get_parameters name).2 ≠ .ok v := by
  have hres : (s.get_parameters name).2 = .error (.unknown name) := by
    rw [server_get_result]
    simp [ParameterStore.get_parameters, h]
  exact ⟨hres, fun v hv => by rw [hres] at hv; exact Except.noConfusion hv⟩

/-- Witness for C3 at the freshly built server and an unregistered
name. -/
theorem c3_unknown_name_errors_witness :
    getEntry (ParameterServer.init default_parameter_store).store.entries "unknown_param"
      = none ∧
    ((ParameterServer.init default_parameter_store).get_parameters "unknown_param").2
      = .error (.unknown "unknown_param") :=
  ⟨by decide,
   (c3_unknown_name_errors (ParameterServer.init default_parameter_store)
     "unknown_param" (by decide)).1⟩

/-- C4: every Parameter Server operation runs its hook callbacks in one
fixed deterministic order: init runs its four init hooks; each of
get/set/add runs its start, main, end hooks; step runs its five run-loop
hooks. -/
theorem c4_hook_orders :
    (∀ st : ParameterStore, (ParameterServer.init st).hook_list =
      ["on_parameter_server_init_start", "on_parameter_server_init",
       "on_parameter_server_init_checkpointer", "on_parameter_server_init_end"]) ∧
    (∀ (s : ParameterServer) (name : String),
      (s.reset_hook_list.get_parameters name).1.hook_list =
      ["on_parameter_server_get_parameters_start", "on_parameter_server_get_parameters",
       "on_parameter_server_get_parameters_end"]) ∧
    (∀ (s : ParameterServer) (updates : List (String × ParamValue)),
      (s.reset_hook_list.set_parameters updates).1.hook_list =
      ["on_parameter_server_set_parameters_start", "on_parameter_server_set_parameters",
       "on_parameter_server_set_parameters_end"]) ∧
    (∀ (s : ParameterServer) (updates : List (String × ParamValue)),
      (s.reset_hook_list.add_to_parameters updates).1.hook_list =
      ["on_parameter_server_add_to_parameters_start", "on_parameter_server_add_to_parameters",
       "on_parameter_server_add_to_parameters_end"]) ∧
    (∀ s : ParameterServer, s.reset_hook_list.step.hook_list =
      ["on_parameter_server_run_loop_start", "on_parameter_server_run_loop_checkpoint",
       "on_parameter_server_run_loop", "on_parameter_server_run_loop_termination",
       "on_parameter_server_run_loop_end"]) :=
  ⟨fun _ => rfl, fun _ _ => rfl, fun _ _ => rfl, fun _ _ => rfl, fun _ => rfl⟩

/-- C5: an Evaluator (an executor built without an adder) appends no
records to the Data Server across any number of run_episode calls: the
Data Server contents are unchanged. -/
theorem c5_evaluator_never_writes_data_server (policy : String → Int → Nat)
    (env : Environment) (n : Nat) (ds : List Record) :
    run_episodes (mkEvaluator policy) env n ds = ds := by
  induction n generalizing ds with
  | zero => rfl
  | succ n ih =>
    rw [run_episodes, run_episode_adder_none _ _ rfl]
    exact ih ds

/-- C6: for an observation set over agents agent_0, agent_1, agent_2 of
the debugging simple_spread environment, select_actions returns an action
and auxiliary policy info for exactly those three agent ids, in agent-id
order, and every returned action lies inside that agent's declared
discrete action space. -/
theorem c6_select_actions_cover_and_bounds (ex : ExecutorCore)
    (obsvals : String → Int) :
    ((select_actions ex simple_spread_env.num_values
        (simple_spread_env.possible_agents.map (fun a => (a, obsvals a)))).1.map Prod.fst
      = ["agent_0", "agent_1", "agent_2"]) ∧
    ((select_actions ex simple_spread_env.num_values
        (simple_spread_env.possible_agents.map (fun a => (a, obsvals a)))).2.map Prod.fst
      = ["agent_0", "agent_1", "agent_2"]) ∧
    (∀ p ∈ (select_actions ex simple_spread_env.num_values
        (simple_spread_env.possible_agents.map (fun a => (a, obsvals a)))).1,
      p.2 < simple_spread_env.num_values p.1) := by
  refine ⟨rfl, rfl, ?_⟩
  intro p hp
  simp [select_actions, simple_spread_env] at hp
  rcases hp with rfl | rfl | rfl <;> exact Nat.mod_lt _ (by norm_num)

/-- Witness for C6 at a concrete executor and a concrete observation
set: the three agent ids are covered in order. -/
theorem c6_select_actions_cover_and_bounds_witness :
    (select_actions ⟨none, fun _ _ => 3⟩ simple_spread_env.num_values
        (simple_spread_env.possible_agents.map (fun a => (a, (0 : Int))))).1.map Prod.fst
      = ["agent_0", "agent_1", "agent_2"] :=
  (c6_select_actions_cover_and_bounds ⟨none, fun _ _ => 3⟩ (fun _ => 0)).1

/-- C7: when make_executor is given a variable source, a variable client
is created and its blocking update_and_wait fetch completes before the
executor is returned, so the returned executor's client holds fetched
values. -/
theorem c7_blocking_fetch_before_return (config : MAPPOConfig)
    (agents agent_types : List String) (policy_networks : List (String × Nat))
    (adder : Option Unit) (vs : Unit) :
    ∃ c, (MAPPOBuilder.make_executor config agents agent_types policy_networks
        adder (some vs)).1.variable_client = some c ∧
      c.fetched = true ∧
      (MAPPOBuilder.make_executor config agents agent_types policy_networks
        adder (some vs)).2
        = [BuildEvent.createVariableClient, BuildEvent.updateAndWait] :=
  ⟨_, rfl, rfl, rfl⟩

/-- C8: two Trainer steps on a store whose trainer_steps counter reads i
and whose update rule only touches registered non-counter parameters both
succeed (no exception) and leave the counter at exactly i + 2. -/
theorem c8_trainer_two_steps (t : TrainerState) (i : Int)
    (h1 : getEntry t.param_store.entries "trainer_steps" = some (.array [i]))
    (h2 : ∀ b p, p ∈ t.compute_delta b →
      (getEntry t.param_store.entries p.1).isSome = true ∧ p.1 ≠ "trainer_steps") :
    ∃ t1 t2, t.step = .ok t1 ∧ t1.step = .ok t2 ∧
      getEntry t2.param_store.entries "trainer_steps" = some (.array [i + 2]) := by
  obtain ⟨t1, hstep1, hval1, hdom1, hdelta1⟩ := trainer_step_ok t i h1 h2
  have h2' : ∀ b p, p ∈ t1.compute_delta b →
      (getEntry t1.param_store.entries p.1).isSome = true ∧ p.1 ≠ "trainer_steps" := by
    intro b p hp
    rw [hdelta1] at hp
    obtain ⟨hreg, hne⟩ := h2 b p hp
    exact ⟨by rw [hdom1]; exact hreg, hne⟩
  obtain ⟨t2, hstep2, hval2, _, _⟩ := trainer_step_ok t1 (i + 1) hval1 h2'
  refine ⟨t1, t2, hstep1, hstep2, ?_⟩
  have hi : i + 1 + 1 = i + 2 := by ring
  rwa [hi] at hval2

/-- A concrete freshly built trainer over a batch-producing Data Server
iterator, used to witness C8. -/
def demo_trainer : TrainerState :=
  { dataset := fun _ => [0, 1],
    iter_index := 0,
    compute_delta := fun batch => [("policy_net", .array [(batch.length : Int)])],
    param_store := ⟨[("trainer_steps", .array [0]), ("policy_net", .array [7])]⟩ }

/-- Witness for C8 on the concrete demo trainer, whose counter starts at
0 and ends at 2. -/
theorem c8_trainer_two_steps_witness :
    ∃ t1 t2, demo_trainer.step = .ok t1 ∧ t1.step = .ok t2 ∧
      getEntry t2.param_store.entries "trainer_steps" = some (.array [(0 : Int) + 2]) :=
  c8_trainer_two_steps demo_trainer 0 (by decide) (by
    intro b p hp
    simp [demo_trainer] at hp
    subst hp
    exact ⟨show (getEntry demo_trainer.param_store.entries "policy_net").isSome = true by decide,
           show ("policy_net" : String) ≠ "trainer_steps" by decide⟩)

/-- C9: scalar counters are exposed as 1-element integer arrays, not
scalars: the fresh store returns the array [0] (and never a scalar) for
trainer_steps, and set followed by add on the server act elementwise on
such one-element arrays. -/
theorem c9_counters_are_one_element_arrays :
    (default_parameter_store.get_parameters "trainer_steps" = .ok (.array [0])) ∧
    (∀ n : Int, default_parameter_store.get_parameters "trainer_steps" ≠ .ok (.scalar n)) ∧
    (∀ a b : Int,
      ((((ParameterServer.init default_parameter_store).set_parameters
          [("trainer_steps", .array [a])]).1.add_to_parameters
          [("trainer_steps", .array [b])]).1.get_parameters "trainer_steps").2
        = .ok (.array [a + b])) := by
  refine ⟨rfl, ?_, ?_⟩
  · intro n h
    have h0 : default_parameter_store.get_parameters "trainer_steps" = .ok (.array [0]) := rfl
    rw [h0] at h
    simp at h
  · intro a b
    have s0eq : getEntry (ParameterServer.init default_parameter_store).store.entries
        "trainer_steps" = some (.array [0]) := by decide
    have h1 := server_set_then_get (ParameterServer.init default_parameter_store)
      "trainer_steps" (.array [a]) (.array [0]) s0eq
    have h2 := server_add_then_get _ "trainer_steps" a b h1
    rw [server_get_result]
    exact store_get_of_getEntry _ _ _ h2

/-- Witness for C9 at the concrete values 2 and 3: set then add on the
trainer_steps one-element array yields the one-element array holding
their sum. -/
theorem c9_counters_are_one_element_arrays_witness :
    ((((ParameterServer.init default_parameter_store).set_parameters
        [("trainer_steps", .array [2])]).1.add_to_parameters
        [("trainer_steps", .array [3])]).1.get_parameters "trainer_steps").2
      = .ok (.array [2 + 3]) :=
  c9_counters_are_one_element_arrays.2.2 2 3

/-- C10: when make_executor is called without a variable source, no
variable client is created, no build-time fetch occurs, and the executor
is constructed directly from the given policy networks and adder. -/
theorem c10_no_variable_source_no_client (config : MAPPOConfig)
    (agents agent_types : List String) (policy_networks : List (String × Nat))
    (adder : Option Unit) :
    (MAPPOBuilder.make_executor config agents agent_types policy_networks
      adder none).1.variable_client = none ∧
    (MAPPOBuilder.make_executor config agents agent_types policy_networks
      adder none).2 = [] ∧
    (MAPPOBuilder.make_executor config agents agent_types policy_networks
      adder none).1.policy_networks = policy_networks ∧
    (MAPPOBuilder.make_executor config agents agent_types policy_networks
      adder none).1.adder = adder ∧
    (MAPPOBuilder.make_executor config agents agent_types policy_networks
      adder none).1.shared_weights = config.shared_weights :=
  ⟨rfl, rfl, rfl, rfl, rfl⟩

end Mava
